import Mathlib

/-!
# Verification of the phase-4 conversational todo backend

Shallow embedding of the core subsystem of the repository
(`phase-4-kubernetes/backend/app`): the MCP task tools
(`app/mcp/server.py`), the agent loop (`app/ai/agent.py`) and the chat
request handler (`app/routers/chat.py`).

Modelling conventions:
* Python `str` is Lean `String`; Python `datetime` values are `Nat`
  instants; `datetime.utcnow()` becomes an explicit `now : Nat` argument,
  and `datetime.fromisoformat` (an external library function) becomes an
  explicit `parseDate : String → Option Nat` argument.
* The tasks table is a `List Task`; each tool is a pure state
  transformer returning the structured result dict together with the new
  table.  Database-row primary-key generation becomes an explicit
  `newId` argument.
* A possible exception from the storage layer (`commit` failing, lost
  connectivity, ...) is injected through a `fault : Option String`
  argument: `some e` means the session raises an exception carrying
  message `e`, which each tool's `try/except` wrapper catches, exactly
  as in the source.
* Python truthiness tests (`if tags:`, `if due_date:`, `message.content
  or ...`) are modelled by explicit emptiness tests.
-/

namespace Todo

/-- Task row, following the columns used by `app/mcp/server.py` and the
spec data model (the `app/models.py` module itself is not in the sources;
fields are the ones read and written by the tools). -/
structure Task where
  id : String
  user_id : String
  title : String
  description : Option String
  priority : String
  tags : String
  due_date : Option Nat
  completed : Bool
  status : String
  created_at : Nat
  updated_at : Nat
deriving Repr, DecidableEq

/-- Python `",".join(ts)`. -/
def joinComma : List String → String
  | [] => ""
  | [t] => t
  | t :: ts => t ++ "," ++ joinComma ts

/-- `",".join(tags) if tags else ""` (both `None` and `[]` give `""`,
matching `join` on the empty list). -/
def pyJoinTags : Option (List String) → String
  | some ts => joinComma ts
  | none => ""

/-- Python `s.split(",")` at the character level: splitting at every comma. -/
def splitComma : List Char → List (List Char)
  | [] => [[]]
  | c :: rest =>
    if c = ',' then [] :: splitComma rest
    else
      match splitComma rest with
      | [] => [[c]]
      | g :: gs => (c :: g) :: gs

/-- Python `s.split(",")` on strings. -/
def splitOnComma (s : String) : List String :=
  (splitComma s.data).map String.mk

/-- Python `task.tags.split(",") if task.tags else []` (empty string is
falsy, so it yields `[]`). -/
def pySplitTags (s : String) : List String :=
  if s = "" then [] else splitOnComma s

/-- Python `sub in s` / SQL `LIKE concat`: substring containment,
modelling `Task.tags.contains(tag)`. -/
def strContainsSub (s sub : String) : Bool :=
  decide (sub.data <:+: s.data)

/-- `check` on a supplied optional argument; an absent argument passes
(the guards of the form `if x is not None and bad(x)` / `if x and bad(x)`). -/
def optBad (check : String → Bool) : Option String → Bool
  | some s => check s
  | none => false

/-- The `data` dict of a successful tool result.  `add_task`/`list_tasks`
report `created_at`, `update_task` reports `updated_at`; the two
optional fields record which keys are present. -/
structure TaskData where
  id : String
  title : String
  description : Option String
  priority : String
  tags : List String
  due_date : Option Nat
  completed : Bool
  status : String
  created_at : Option Nat
  updated_at : Option Nat
deriving Repr, DecidableEq

/-- Payload of a successful tool result, one shape per tool family. -/
inductive ResultData where
  /-- `add_task` / `update_task`: the full task dict. -/
  | taskFull (d : TaskData)
  /-- `list_tasks`: array of task dicts plus `count`. -/
  | taskList (items : List TaskData) (count : Nat)
  /-- `complete_task`: `{id, title, completed, status, updated_at}`. -/
  | taskDone (id : String) (title : String) (completed : Bool)
      (st : String) (updated_at : Nat)
  /-- `delete_task`: `{id, title, deleted}`. -/
  | taskDeleted (id : String) (title : String) (deleted : Bool)
deriving Repr, DecidableEq

/-- Structured tool result: the `{"success": ..., "error"/"data"/"message"}`
dict every tool returns.  `success` carries data plus the optional
`message` key. -/
inductive ToolOutcome where
  | success (data : ResultData) (message : Option String)
  | failure (error : String)
deriving Repr, DecidableEq

/-- The `success` flag of a result dict. -/
def ToolOutcome.isSuccess : ToolOutcome → Bool
  | .success _ _ => true
  | .failure _ => false

/-- `data["tags"]` of an `add_task`/`update_task` success. -/
def successTags : ToolOutcome → Option (List String)
  | .success (.taskFull d) _ => some d.tags
  | _ => none

/-- `[item["tags"] for item in data]` of a `list_tasks` success. -/
def listedTags : ToolOutcome → Option (List (List String))
  | .success (.taskList items _) _ => some (items.map TaskData.tags)
  | _ => none

/-- The task dict built by `add_task`/`list_tasks` (with `created_at`). -/
def taskDataC (t : Task) : TaskData :=
  { id := t.id, title := t.title, description := t.description,
    priority := t.priority, tags := pySplitTags t.tags,
    due_date := t.due_date, completed := t.completed, status := t.status,
    created_at := some t.created_at, updated_at := none }

/-- The task dict built by `update_task` (with `updated_at`). -/
def taskDataU (t : Task) : TaskData :=
  { id := t.id, title := t.title, description := t.description,
    priority := t.priority, tags := pySplitTags t.tags,
    due_date := t.due_date, completed := t.completed, status := t.status,
    created_at := none, updated_at := some t.updated_at }

/-- Replace the first row matching `(task_id, user_id)` by `f` of it:
the effect of mutating the ORM object returned by the ownership-joint
`select ... where id == task_id and user_id == user_id`. -/
def replaceTask (tid uid : String) (f : Task → Task) : List Task → List Task
  | [] => []
  | t :: ts =>
    if t.id == tid && t.user_id == uid then f t :: ts
    else t :: replaceTask tid uid f ts

/-- Remove the first row matching `(task_id, user_id)`: `db.delete(task)`. -/
def removeTask (tid uid : String) : List Task → List Task
  | [] => []
  | t :: ts =>
    if t.id == tid && t.user_id == uid then ts
    else t :: removeTask tid uid ts

/-- The ownership-joint lookup
`select(Task).where(Task.id == task_id, Task.user_id == user_id)`
followed by `scalar_one_or_none()` (primary keys are unique, so the
first match is the only one). -/
def findTask (tid uid : String) (db : List Task) : Option Task :=
  db.find? (fun t => t.id == tid && t.user_id == uid)

/-- `add_task` from `app/mcp/server.py` (lines 174-286): validate title,
description, priority and due date, then insert a fresh row owned by
`user_id`; any storage exception is caught and reported as a structured
failure. -/
def add_task (parseDate : String → Option Nat) (newId : String) (now : Nat)
    (fault : Option String) (user_id : String) (title : String)
    (description : Option String) (priority : String)
    (tags : Option (List String)) (due_date : Option String)
    (db : List Task) : ToolOutcome × List Task :=
  if title = "" ∨ title.length > 200 then
    (.failure "Title is required and must be 200 characters or less", db)
  else if optBad (fun d => decide (d.length > 1000)) description then
    (.failure "Description must be 1000 characters or less", db)
  else if ¬ (priority = "Low" ∨ priority = "Medium" ∨ priority = "High") then
    (.failure "Priority must be one of: Low, Medium, High", db)
  else
    match (match due_date with
           | none => Except.ok (none : Option Nat)
           | some s =>
             if s = "" then Except.ok none
             else match parseDate s with
                  | some d => Except.ok (some d)
                  | none => Except.error ()) with
    | .error _ =>
      (.failure "Invalid due_date format. Use ISO 8601 (YYYY-MM-DD or YYYY-MM-DDTHH:MM:SS)", db)
    | .ok parsed =>
      match fault with
      | some e => (.failure ("Failed to create task: " ++ e), db)
      | none =>
        let task : Task :=
          { id := newId, user_id := user_id, title := title,
            description := description, priority := priority,
            tags := pyJoinTags tags, due_date := parsed,
            completed := false, status := "ready",
            created_at := now, updated_at := now }
        (.success (.taskFull (taskDataC task)) none, db ++ [task])

/-- One task passes the `list_tasks` filters. -/
def listFilter (user_id : String) (status : Option String)
    (priority : Option String) (tags : Option (List String))
    (t : Task) : Bool :=
  t.user_id == user_id
  && (match status with
      | some s => if s = "" then true else t.completed == (s == "completed")
      | none => true)
  && (match priority with
      | some p => if p = "" then true else t.priority == p
      | none => true)
  && (match tags with
      | some ts => if ts.isEmpty then true else ts.any (fun tg => strContainsSub t.tags tg)
      | none => true)

/-- `list_tasks` from `app/mcp/server.py` (lines 326-437): validate the
limit and the optional enum filters, then return the caller's rows that
match every supplied filter (tags match-any), truncated to `limit`. -/
def list_tasks (fault : Option String) (user_id : String)
    (status : Option String) (priority : Option String)
    (tags : Option (List String)) (limit : Int)
    (db : List Task) : ToolOutcome × List Task :=
  if limit < 1 ∨ limit > 100 then
    (.failure "Limit must be between 1 and 100", db)
  else if optBad (fun p => !(p == "" || p == "Low" || p == "Medium" || p == "High")) priority then
    (.failure "Priority must be one of: Low, Medium, High", db)
  else if optBad (fun s => !(s == "" || s == "pending" || s == "completed")) status then
    (.failure "Status must be one of: pending, completed", db)
  else
    match fault with
    | some e => (.failure ("Failed to retrieve tasks: " ++ e), db)
    | none =>
      let rows := (db.filter (listFilter user_id status priority tags)).take limit.toNat
      (.success (.taskList (rows.map taskDataC) (rows.map taskDataC).length) none, db)

/-- The validation prefix of `update_task` (lines 529-572): either a
validation error, or the parsed due date to apply (if any). -/
def updateValidation (parseDate : String → Option Nat)
    (title description status priority : Option String)
    (tags : Option (List String)) (due_date : Option String) :
    Except String (Option Nat) :=
  if title = none ∧ description = none ∧ status = none ∧ priority = none
      ∧ tags = none ∧ due_date = none then
    .error "At least one field must be provided to update"
  else if optBad (fun t => t == "" || decide (t.length > 200)) title then
    .error "Title must be between 1 and 200 characters"
  else if optBad (fun d => decide (d.length > 1000)) description then
    .error "Description must be 1000 characters or less"
  else if optBad (fun p => !(p == "Low" || p == "Medium" || p == "High")) priority then
    .error "Priority must be one of: Low, Medium, High"
  else if optBad (fun s => !(s == "ready" || s == "in_progress" || s == "done")) status then
    .error "Status must be one of: ready, in_progress, done"
  else
    match due_date with
    | none => .ok none
    | some s =>
      match parseDate s with
      | some d => .ok (some d)
      | none => .error "Invalid due_date format. Use ISO 8601 (YYYY-MM-DD or YYYY-MM-DDTHH:MM:SS)"

/-- Apply the provided fields to a found row, in source order
(lines 592-610); status `"done"` also sets the completed flag, and
`updated_at` is always refreshed. -/
def applyUpdate (now : Nat) (title description status priority : Option String)
    (tags : Option (List String)) (parsedDue : Option Nat) (t0 : Task) : Task :=
  let t1 := match title with
            | some v => { t0 with title := v }
            | none => t0
  let t2 := match description with
            | some v => { t1 with description := some v }
            | none => t1
  let t3 := match status with
            | some v =>
              if v = "done" then { t2 with status := v, completed := true }
              else { t2 with status := v }
            | none => t2
  let t4 := match priority with
            | some v => { t3 with priority := v }
            | none => t3
  let t5 := match tags with
            | some ts => { t4 with tags := joinComma ts }
            | none => t4
  let t6 := match parsedDue with
            | some d => { t5 with due_date := some d }
            | none => t5
  { t6 with updated_at := now }

/-- `update_task` from `app/mcp/server.py` (lines 489-637): validate,
perform the ownership-joint lookup (unknown id and foreign owner are
indistinguishable), apply only the provided fields, refresh
`updated_at`, and return the updated dict. -/
def update_task (parseDate : String → Option Nat) (now : Nat)
    (fault : Option String) (user_id : String) (task_id : String)
    (title description status priority : Option String)
    (tags : Option (List String)) (due_date : Option String)
    (db : List Task) : ToolOutcome × List Task :=
  match updateValidation parseDate title description status priority tags due_date with
  | .error e => (.failure e, db)
  | .ok parsedDue =>
    match fault with
    | some e => (.failure ("Failed to update task: " ++ e), db)
    | none =>
      match findTask task_id user_id db with
      | none => (.failure "Task not found or access denied", db)
      | some t0 =>
        let t1 := applyUpdate now title description status priority tags parsedDue t0
        (.success (.taskFull (taskDataU t1)) none,
         replaceTask task_id user_id (fun _ => t1) db)

/-- `complete_task` from `app/mcp/server.py` (lines 662-734): ownership-
joint lookup, then set `completed := true`, `status := "done"` and
refresh `updated_at`. -/
def complete_task (now : Nat) (fault : Option String)
    (user_id : String) (task_id : String) (db : List Task) :
    ToolOutcome × List Task :=
  match fault with
  | some e => (.failure ("Failed to complete task: " ++ e), db)
  | none =>
    match findTask task_id user_id db with
    | none => (.failure "Task not found or access denied", db)
    | some t =>
      (.success (.taskDone t.id t.title true "done" now)
        (some ("Task \x27" ++ t.title ++ "\x27 marked as completed")),
       replaceTask task_id user_id
         (fun u => { u with completed := true, status := "done", updated_at := now }) db)

/-- `delete_task` from `app/mcp/server.py` (lines 759-833): ownership-
joint lookup, then permanently remove the row. -/
def delete_task (fault : Option String) (user_id : String)
    (task_id : String) (db : List Task) : ToolOutcome × List Task :=
  match fault with
  | some e => (.failure ("Failed to delete task: " ++ e), db)
  | none =>
    match findTask task_id user_id db with
    | none => (.failure "Task not found or access denied", db)
    | some t =>
      (.success (.taskDeleted t.id t.title true)
        (some ("Task \x27" ++ t.title ++ "\x27 has been permanently deleted")),
       removeTask task_id user_id db)

/-! ## Agent layer (`app/ai/agent.py`)

The model-supplied argument payload of a tool call, after
`json.loads(tool_call.function.arguments)`.  Optional JSON keys are
`Option` fields; the model may or may not include a `user_id` of its
own, which `_execute_tool_call` overwrites in every case. -/

/-- Parsed `add_task` payload. -/
structure AddArgs where
  user_id : Option String
  title : String
  description : Option String
  priority : Option String
  tags : Option (List String)
  due_date : Option String
deriving Repr, DecidableEq

/-- Parsed `list_tasks` payload. -/
structure ListArgs where
  user_id : Option String
  status : Option String
  priority : Option String
  tags : Option (List String)
  limit : Option Int
deriving Repr, DecidableEq

/-- Parsed `update_task` payload. -/
structure UpdateArgs where
  user_id : Option String
  task_id : String
  title : Option String
  description : Option String
  status : Option String
  priority : Option String
  tags : Option (List String)
  due_date : Option String
deriving Repr, DecidableEq

/-- Parsed `complete_task` / `delete_task` payload. -/
structure IdArgs where
  user_id : Option String
  task_id : String
deriving Repr, DecidableEq

/-- One requested tool invocation, as interpreted by
`_execute_tool_call`: one of the five registered tools with its parsed
payload, a name outside the registry, or a payload whose JSON parse
raised (the exception text is carried along). -/
inductive ToolCall where
  | add (a : AddArgs)
  | listT (a : ListArgs)
  | update (a : UpdateArgs)
  | complete (a : IdArgs)
  | delete (a : IdArgs)
  | unknown (name : String)
  | malformed (excText : String)
deriving Repr, DecidableEq

/-- Overwrite the payload's `user_id` key (`tool_args["user_id"] = v`);
used to state the injection hyperproperty. -/
def ToolCall.withUser (v : Option String) : ToolCall → ToolCall
  | .add a => .add { a with user_id := v }
  | .listT a => .listT { a with user_id := v }
  | .update a => .update { a with user_id := v }
  | .complete a => .complete { a with user_id := v }
  | .delete a => .delete { a with user_id := v }
  | .unknown n => .unknown n
  | .malformed e => .malformed e

/-- Per-call environment for the external effects of a tool execution:
the date parser, the fresh primary key, the clock, and a possible
storage-layer exception. -/
structure ToolEnv where
  parseDate : String → Option Nat
  newId : String
  now : Nat
  fault : Option String

/-- `TodoAgent._execute_tool_call` (lines 331-379): parse the arguments
(a parse failure is caught and reported), look the tool up in the
registry (`Unknown tool` otherwise), forcibly set
`tool_args["user_id"] = user_id` with the authenticated caller's id,
and dispatch `tool_func(**tool_args)`.  Absent optional keys fall back
to the tool function's Python defaults. -/
def executeToolCall (env : ToolEnv) (auth : String) (c : ToolCall)
    (db : List Task) : ToolOutcome × List Task :=
  match c with
  | .malformed e => (.failure ("Tool execution failed: " ++ e), db)
  | .unknown name => (.failure ("Unknown tool: " ++ name), db)
  | .add a =>
    add_task env.parseDate env.newId env.now env.fault auth a.title
      a.description (a.priority.getD "Medium") a.tags a.due_date db
  | .listT a =>
    list_tasks env.fault auth a.status a.priority a.tags (a.limit.getD 20) db
  | .update a =>
    update_task env.parseDate env.now env.fault auth a.task_id
      a.title a.description a.status a.priority a.tags a.due_date db
  | .complete a => complete_task env.now env.fault auth a.task_id db
  | .delete a => delete_task env.fault auth a.task_id db

/-- Content of a working-context entry: plain text, or the
`json.dumps` serialization of a structured tool result (kept as the
structured value itself; serialization is injective and external). -/
inductive MsgContent where
  | text (s : String)
  | json (r : ToolOutcome)
deriving Repr, DecidableEq

/-- One entry of the working context (the dicts appended to
`current_messages`). -/
structure ChatMsg where
  role : String
  content : MsgContent
  tool_calls : Option (List (String × ToolCall))
  tool_call_id : Option String
deriving Repr, DecidableEq

/-- A model completion: optional text content plus requested tool calls
(each with its call identifier). -/
structure ModelMsg where
  content : Option String
  tool_calls : List (String × ToolCall)
deriving Repr, DecidableEq

/-- Python `x or d` on an optional string (`None` and `""` are falsy). -/
def pyOr (s : Option String) (d : String) : String :=
  match s with
  | some c => if c = "" then d else c
  | none => d

/-- The fixed fallback returned when the iteration budget is exhausted
(line 329 of `agent.py`). -/
def fallbackReply : String :=
  "I apologize, but I couldn\x27t complete your request within the allowed time. Please try again or rephrase your request."

/-- The default reply when the model's final message has no content
(line 321 of `agent.py`). -/
def emptyContentReply : String :=
  "I apologize, but I couldn\x27t complete your request."

/-- Execute the requested tool calls in order, appending each structured
result as a tool-role entry tied to the call's identifier
(lines 304-314 of `agent.py`). -/
def runTools (env : ToolEnv) (auth : String) :
    List (String × ToolCall) → List ChatMsg → List Task →
    List ChatMsg × List Task
  | [], msgs, db => (msgs, db)
  | (cid, c) :: rest, msgs, db =>
    let r := executeToolCall env auth c db
    runTools env auth rest
      (msgs ++ [{ role := "tool", content := .json r.1,
                  tool_calls := none, tool_call_id := some cid }]) r.2

/-- The iteration loop of `TodoAgent.run` (lines 276-329), recursing on
the remaining iteration budget.  The result is the reply (or the
propagated model-capability exception) together with the number of
model calls performed and the final task table. -/
def agentLoop (model : List ChatMsg → Except String ModelMsg)
    (env : ToolEnv) (auth : String) :
    Nat → List ChatMsg → List Task → Nat →
    Except String (String × Nat) × List Task
  | 0, _msgs, db, calls => (.ok (fallbackReply, calls), db)
  | fuel + 1, msgs, db, calls =>
    match model msgs with
    | .error e => (.error ("OpenAI API error: " ++ e), db)
    | .ok m =>
      let msgs2 := msgs ++
        [{ role := "assistant", content := .text (pyOr m.content ""),
           tool_calls := if m.tool_calls.isEmpty then none else some m.tool_calls,
           tool_call_id := none }]
      if m.tool_calls.isEmpty then
        (.ok (pyOr m.content emptyContentReply, calls + 1), db)
      else
        let s := runTools env auth m.tool_calls msgs2 db
        agentLoop model env auth fuel s.1 s.2 (calls + 1)

/-- `TodoAgent.run(messages, user_id, max_iterations)`. -/
def agentRun (model : List ChatMsg → Except String ModelMsg)
    (env : ToolEnv) (auth : String) (msgs : List ChatMsg)
    (db : List Task) (maxIterations : Nat) :
    Except String (String × Nat) × List Task :=
  agentLoop model env auth maxIterations msgs db 0

/-! ## Chat request handler (`app/routers/chat.py`) -/

/-- Conversation row, with the fields set by
`get_or_create_conversation`. -/
structure Conversation where
  id : Nat
  user_id : String
  title : String
  created_at : Nat
  updated_at : Nat
  is_active : Bool
deriving Repr, DecidableEq

/-- Message row, with the fields set by `store_message` (the
`app/models.py` module is not among the sources; the fields are the
ones `chat.py` constructs and reads, matching the spec data model). -/
structure Message where
  conversation_id : Nat
  role : String
  content : String
  created_at : Nat
deriving Repr, DecidableEq

/-- The conversation store: the two tables the chat handler touches. -/
structure ChatStore where
  conversations : List Conversation
  messages : List Message
deriving Repr, DecidableEq

/-- Replace the first conversation row matching `(id, user_id)` by `f`
of it (mutating the ORM object returned by the ownership-joint select). -/
def replaceConv (cid : Nat) (uid : String) (f : Conversation → Conversation) :
    List Conversation → List Conversation
  | [] => []
  | c :: cs =>
    if c.id == cid && c.user_id == uid then f c :: cs
    else c :: replaceConv cid uid f cs

/-- The system prompt `TODO_ASSISTANT_SYSTEM_PROMPT` (lines 50-103 of
`agent.py`).  The prose is opaque data to every property verified here,
so only its head line is reproduced. -/
def TODO_ASSISTANT_SYSTEM_PROMPT : String :=
  "You are a helpful TODO task assistant. You help users manage their tasks through natural language conversations."

/-- Errors the chat endpoint surfaces (`HTTPException`s). -/
inductive ChatError where
  | notFound (detail : String)
  | serverError (detail : String)
deriving Repr, DecidableEq

/-- Request-level environment: the clock, the primary key a flush would
assign to a newly created conversation, the model capability, and the
tool-call environment. -/
structure ChatEnv where
  now : Nat
  newConvId : Nat
  model : List ChatMsg → Except String ModelMsg
  toolEnv : ToolEnv

/-- `get_or_create_conversation` (lines 37-95): with a (truthy)
conversation id, an ownership-joint lookup that 404s on a miss and
refreshes `updated_at` on a hit; otherwise a newly created conversation
owned by the caller, its id assigned at flush.  Acts on the session's
buffered view of the store; nothing is committed here. -/
def get_or_create_conversation (env : ChatEnv) (auth : String)
    (conversation_id : Option Nat) (buf : ChatStore) :
    Except ChatError (ChatStore × Conversation) :=
  let create : ChatStore × Conversation :=
    let conv : Conversation :=
      { id := env.newConvId, user_id := auth, title := "New Conversation",
        created_at := env.now, updated_at := env.now, is_active := true }
    ({ buf with conversations := buf.conversations ++ [conv] }, conv)
  match conversation_id with
  | some cid =>
    if cid = 0 then .ok create
    else
      match buf.conversations.find? (fun c => c.id == cid && c.user_id == auth) with
      | none => .error (.notFound "Conversation not found or access denied")
      | some conv =>
        let conv2 := { conv with updated_at := env.now }
        .ok ({ buf with conversations := replaceConv cid auth (fun _ => conv2) buf.conversations },
             conv2)
  | none => .ok create

/-- Insert into a list sorted by descending `created_at`
(`order_by(Message.created_at.desc())`). -/
def insertByDesc (m : Message) : List Message → List Message
  | [] => [m]
  | x :: xs =>
    if x.created_at ≤ m.created_at then m :: x :: xs
    else x :: insertByDesc m xs

/-- Sort by descending `created_at`. -/
def sortDescMsgs : List Message → List Message
  | [] => []
  | m :: ms => insertByDesc m (sortDescMsgs ms)

/-- `get_conversation_messages` (lines 98-132): the conversation's
messages ordered by `created_at` descending, limited to the most recent
`limit`, then reversed into chronological order. -/
def get_conversation_messages (buf : ChatStore) (conversation_id : Nat)
    (limit : Nat) : List Message :=
  ((sortDescMsgs (buf.messages.filter
      (fun m => m.conversation_id == conversation_id))).take limit).reverse

/-- `store_message` (lines 135-164): append a message row to the
session buffer (`session.add`; no commit here). -/
def store_message (buf : ChatStore) (conversation_id : Nat)
    (role content : String) (now : Nat) : ChatStore :=
  { buf with messages := buf.messages ++
      [{ conversation_id := conversation_id, role := role,
         content := content, created_at := now }] }

/-- Steps 2-5 of `send_chat_message` (lines 215-252): resolve or create
the conversation, load the last-20 history, buffer the incoming user
message, and assemble the working context.  This stage makes no use of
the model capability; the agent is only consulted afterwards. -/
def chatPrepare (env : ChatEnv) (auth : String) (messageText : String)
    (conversation_id : Option Nat) (store : ChatStore) :
    Except ChatError (ChatStore × Nat × List ChatMsg) :=
  match get_or_create_conversation env auth conversation_id store with
  | .error e => .error e
  | .ok s =>
    let buf1 := s.1
    let conv := s.2
    let history := get_conversation_messages buf1 conv.id 20
    let buf2 := store_message buf1 conv.id "user" messageText env.now
    let arr : List ChatMsg :=
      [{ role := "system", content := .text TODO_ASSISTANT_SYSTEM_PROMPT,
         tool_calls := none, tool_call_id := none }]
      ++ history.map (fun m =>
           { role := m.role, content := .text m.content,
             tool_calls := none, tool_call_id := none })
      ++ [{ role := "user", content := .text messageText,
            tool_calls := none, tool_call_id := none }]
    .ok (buf2, conv.id, arr)

/-- `send_chat_message` (lines 172-308): prepare (steps 2-5), run the
agent (step 6; a failure surfaces as a 500 with no commit — the tools'
own sessions have already committed their task writes), store the
assistant reply (step 7) and commit the buffered conversation writes as
one transaction (step 8).  The returned `ChatStore` is the committed
store after the request; only the commit publishes the buffer. -/
def send_chat_message (env : ChatEnv) (auth : String) (messageText : String)
    (conversation_id : Option Nat) (store : ChatStore) (taskDb : List Task) :
    Except ChatError (Nat × String) × ChatStore × List Task :=
  match chatPrepare env auth messageText conversation_id store with
  | .error e => (.error e, store, taskDb)
  | .ok prep =>
    let buf := prep.1
    let convId := prep.2.1
    let arr := prep.2.2
    match agentRun env.model env.toolEnv auth arr taskDb 5 with
    | (.error _e, taskDb2) =>
      (.error (.serverError "AI service is currently unavailable. Please try again later."),
       store, taskDb2)
    | (.ok r, taskDb2) =>
      let buf2 := store_message buf convId "assistant" r.1 env.now
      (.ok (convId, r.1), buf2, taskDb2)

/-! ## Witness fixtures -/

/-- A concrete task owned by `"alice"`. -/
def taskA : Task :=
  ⟨"t1", "alice", "T", none, "Medium", "", none, false, "ready", 0, 0⟩

/-- A concrete already-completed task owned by `"alice"`. -/
def taskDoneA : Task :=
  ⟨"t1", "alice", "T", none, "Medium", "", none, true, "done", 0, 0⟩

/-- A concrete tool environment with no storage fault. -/
def toolEnv0 : ToolEnv := ⟨fun _ => none, "n1", 0, none⟩

/-- A chat environment whose model capability always fails. -/
def chatEnvFail : ChatEnv := ⟨0, 1, fun _ => .error "connection error", toolEnv0⟩

/-- A chat environment whose model capability replies immediately. -/
def chatEnvOk : ChatEnv := ⟨0, 1, fun _ => .ok ⟨some "ok", []⟩, toolEnv0⟩

/-- A model capability stub that requests a tool call on every invocation
and never returns a plain-text reply. -/
def modelAlwaysTool : List ChatMsg → Except String ModelMsg :=
  fun _ => .ok ⟨none, [("call_1", .unknown "no_such_tool")]⟩

/-! ## Helper lemmas -/

/-- A property of a result dict: the failure branch carries a nonempty
error string (the success branch needs nothing further: the `success`
flag and the payload are present by construction). -/
def resultWellFormed : ToolOutcome → Prop
  | .success _ _ => True
  | .failure e => e ≠ ""

theorem append_ne_empty_left (a b : String) (h : a ≠ "") : a ++ b ≠ "" := by
  intro he
  apply h
  have hd : (a ++ b).data = ("" : String).data := congrArg String.data he
  rw [String.data_append] at hd
  rcases List.append_eq_nil.mp hd with ⟨ha, _⟩
  cases a
  simp only at ha
  simp [ha]

theorem findTask_eq_none_of_foreign (db : List Task) (tid b : String)
    (h : ∀ t ∈ db, ¬ (t.id = tid ∧ t.user_id = b)) :
    findTask tid b db = none := by
  rw [findTask, List.find?_eq_none]
  intro t ht
  simp only [Bool.and_eq_true, beq_iff_eq]
  exact fun hc => h t ht ⟨hc.1, hc.2⟩

theorem findTask_replaceTask (tid uid : String) (f : Task → Task)
    (db : List Task) (t0 : Task)
    (h : findTask tid uid db = some t0)
    (hf : ((f t0).id == tid && (f t0).user_id == uid) = true) :
    findTask tid uid (replaceTask tid uid f db) = some (f t0) := by
  induction db with
  | nil => simp [findTask, List.find?] at h
  | cons t ts ih =>
    by_cases hc : (t.id == tid && t.user_id == uid) = true
    · rw [findTask, List.find?] at h
      rw [hc] at h
      injection h with h
      subst h
      rw [replaceTask, if_pos hc, findTask, List.find?, hf]
    · rw [findTask, List.find?] at h
      rw [Bool.not_eq_true] at hc
      rw [hc] at h
      rw [replaceTask, if_neg (by simp [hc]), findTask, List.find?, hc]
      exact ih h

theorem replaceTask_replaceTask (tid uid : String) (f g : Task → Task)
    (hf : ∀ u, (f u).id = u.id ∧ (f u).user_id = u.user_id)
    (db : List Task) :
    replaceTask tid uid g (replaceTask tid uid f db)
      = replaceTask tid uid (fun u => g (f u)) db := by
  induction db with
  | nil => rfl
  | cons t ts ih =>
    by_cases hc : (t.id == tid && t.user_id == uid) = true
    · rw [replaceTask, if_pos hc, replaceTask, replaceTask, if_pos hc,
        if_pos (by simp only [(hf t).1, (hf t).2]; exact hc)]
    · rw [Bool.not_eq_true] at hc
      rw [replaceTask, if_neg (by simp [hc]), replaceTask, replaceTask,
        if_neg (by simp [hc]), if_neg (by simp [hc]), ih]

theorem mem_replaceTask {t2 : Task} {tid uid : String} {f : Task → Task}
    {db : List Task} (h : t2 ∈ replaceTask tid uid f db) :
    t2 ∈ db ∨ ∃ u, u ∈ db ∧ (u.id == tid && u.user_id == uid) = true ∧ t2 = f u := by
  induction db with
  | nil => simp [replaceTask] at h
  | cons t ts ih =>
    by_cases hc : (t.id == tid && t.user_id == uid) = true
    · rw [replaceTask, if_pos hc] at h
      rcases List.mem_cons.mp h with h | h
      · exact Or.inr ⟨t, List.mem_cons_self t ts, hc, h⟩
      · exact Or.inl (List.mem_cons_of_mem t h)
    · rw [Bool.not_eq_true] at hc
      rw [replaceTask, if_neg (by simp [hc])] at h
      rcases List.mem_cons.mp h with h | h
      · exact Or.inl (h ▸ List.mem_cons_self t ts)
      · rcases ih h with h | ⟨u, hu, hmatch, heq⟩
        · exact Or.inl (List.mem_cons_of_mem t h)
        · exact Or.inr ⟨u, List.mem_cons_of_mem t hu, hmatch, heq⟩

theorem mem_removeTask {t2 : Task} {tid uid : String} {db : List Task}
    (h : t2 ∈ removeTask tid uid db) : t2 ∈ db := by
  induction db with
  | nil => simp [removeTask] at h
  | cons t ts ih =>
    by_cases hc : (t.id == tid && t.user_id == uid) = true
    · rw [removeTask, if_pos hc] at h
      exact List.mem_cons_of_mem t h
    · rw [Bool.not_eq_true] at hc
      rw [removeTask, if_neg (by simp [hc])] at h
      rcases List.mem_cons.mp h with h | h
      · exact h ▸ List.mem_cons_self t ts
      · exact List.mem_cons_of_mem t (ih h)

theorem applyUpdate_id (now : Nat) (ti de st pr : Option String)
    (tg : Option (List String)) (du : Option Nat) (t : Task) :
    (applyUpdate now ti de st pr tg du t).id = t.id := by
  unfold applyUpdate
  rcases ti with _ | v1 <;> rcases de with _ | v2 <;> rcases st with _ | v3 <;>
    rcases pr with _ | v4 <;> rcases tg with _ | v5 <;> rcases du with _ | v6 <;>
    simp only <;> split <;> rfl

theorem applyUpdate_user_id (now : Nat) (ti de st pr : Option String)
    (tg : Option (List String)) (du : Option Nat) (t : Task) :
    (applyUpdate now ti de st pr tg du t).user_id = t.user_id := by
  unfold applyUpdate
  rcases ti with _ | v1 <;> rcases de with _ | v2 <;> rcases st with _ | v3 <;>
    rcases pr with _ | v4 <;> rcases tg with _ | v5 <;> rcases du with _ | v6 <;>
    simp only <;> split <;> rfl

theorem applyUpdate_status (now : Nat) (ti de pr : Option String) (s : String)
    (tg : Option (List String)) (du : Option Nat) (t : Task) :
    (applyUpdate now ti de (some s) pr tg du t).status = s := by
  unfold applyUpdate
  rcases ti with _ | v1 <;> rcases de with _ | v2 <;>
    rcases pr with _ | v4 <;> rcases tg with _ | v5 <;> rcases du with _ | v6 <;>
    simp only <;> split <;> rfl

theorem applyUpdate_completed (now : Nat) (ti de pr : Option String) (s : String)
    (tg : Option (List String)) (du : Option Nat) (t : Task) :
    (applyUpdate now ti de (some s) pr tg du t).completed
      = (if s = "done" then true else t.completed) := by
  unfold applyUpdate
  rcases ti with _ | v1 <;> rcases de with _ | v2 <;>
    rcases pr with _ | v4 <;> rcases tg with _ | v5 <;> rcases du with _ | v6 <;>
    simp only <;> split <;> simp_all

theorem insertByDesc_all_gt (m : Message) (l : List Message)
    (h : ∀ x ∈ l, ¬ x.created_at ≤ m.created_at) :
    insertByDesc m l = l ++ [m] := by
  induction l with
  | nil => rfl
  | cons x xs ih =>
    rw [insertByDesc, if_neg (h x (List.mem_cons_self x xs)),
      ih (fun y hy => h y (List.mem_cons_of_mem x hy))]
    rfl

theorem sortDescMsgs_of_ascending (l : List Message)
    (h : l.Pairwise (fun a b => a.created_at < b.created_at)) :
    sortDescMsgs l = l.reverse := by
  induction l with
  | nil => rfl
  | cons m ms ih =>
    rcases List.pairwise_cons.mp h with ⟨hm, hms⟩
    rw [sortDescMsgs, ih hms,
      insertByDesc_all_gt m ms.reverse
        (fun x hx => Nat.not_le.mpr (hm x (List.mem_reverse.mp hx))),
      List.reverse_cons]

theorem splitComma_no_comma (l : List Char) (h : ',' ∉ l) : splitComma l = [l] := by
  induction l with
  | nil => rfl
  | cons c cs ih =>
    rw [splitComma,
      if_neg (fun hc => h (by rw [← hc]; exact List.mem_cons_self c cs)),
      ih (fun hc => h (List.mem_cons_of_mem c hc))]

theorem splitComma_append (a b : List Char) (h : ',' ∉ a) :
    splitComma (a ++ ',' :: b) = a :: splitComma b := by
  induction a with
  | nil => simp [splitComma]
  | cons c cs ih =>
    rw [List.cons_append, splitComma,
      if_neg (fun hc => h (by rw [← hc]; exact List.mem_cons_self c cs)),
      ih (fun hc => h (List.mem_cons_of_mem c hc))]

theorem joinComma_data_cons (t : String) (ts : List String) (h : ts ≠ []) :
    (joinComma (t :: ts)).data = t.data ++ ',' :: (joinComma ts).data := by
  match ts with
  | [] => exact absurd rfl h
  | u :: us =>
    show (t ++ "," ++ joinComma (u :: us)).data = _
    rw [String.data_append, String.data_append, List.append_assoc]
    rfl

theorem splitOnComma_joinComma (ts : List String) (h : ts ≠ [])
    (hc : ∀ t ∈ ts, ',' ∉ t.data) : splitOnComma (joinComma ts) = ts := by
  induction ts with
  | nil => exact absurd rfl h
  | cons t us ih =>
    match us, ih with
    | [], _ =>
      show (splitComma (joinComma [t]).data).map String.mk = [t]
      rw [show joinComma [t] = t from rfl,
        splitComma_no_comma t.data (hc t (List.mem_cons_self t []))]
      simp
    | u :: us2, ih =>
      rw [splitOnComma, joinComma_data_cons t (u :: us2) (by simp),
        splitComma_append _ _ (hc t (List.mem_cons_self t _)), List.map_cons]
      have ih2 := ih (by simp) (fun x hx => hc x (List.mem_cons_of_mem t hx))
      rw [splitOnComma] at ih2
      rw [ih2]

theorem joinComma_ne_empty (ts : List String) (h1 : ts ≠ []) (h2 : ts ≠ [""]) :
    joinComma ts ≠ "" := by
  match ts with
  | [] => exact absurd rfl h1
  | [t] =>
    show t ≠ ""
    intro he
    exact h2 (by rw [he])
  | t :: u :: us =>
    intro he
    have hd := congrArg String.data he
    rw [joinComma_data_cons t (u :: us) (by simp)] at hd
    simp at hd

theorem pySplitTags_roundTrip (ts : List String) (h : ts ≠ [""])
    (hc : ∀ t ∈ ts, ',' ∉ t.data) :
    pySplitTags (pyJoinTags (some ts)) = ts := by
  match ts with
  | [] => rfl
  | t :: us =>
    rw [pyJoinTags, pySplitTags,
      if_neg (joinComma_ne_empty (t :: us) (by simp) h),
      splitOnComma_joinComma (t :: us) (by simp) hc]

theorem wf_add_task (pd : String → Option Nat) (nid : String) (now : Nat)
    (fault : Option String) (uid title : String) (de : Option String)
    (pr : String) (tg : Option (List String)) (du : Option String)
    (db : List Task) :
    resultWellFormed (add_task pd nid now fault uid title de pr tg du db).1 := by
  unfold add_task
  repeat' split
  all_goals simp only [resultWellFormed]
  all_goals first
    | trivial
    | decide
    | exact append_ne_empty_left _ _ (by decide)

theorem wf_list_tasks (fault : Option String) (uid : String)
    (st pr : Option String) (tg : Option (List String)) (limit : Int)
    (db : List Task) :
    resultWellFormed (list_tasks fault uid st pr tg limit db).1 := by
  unfold list_tasks
  repeat' split
  all_goals simp only [resultWellFormed]
  all_goals first
    | trivial
    | decide
    | exact append_ne_empty_left _ _ (by decide)

theorem updateValidation_error_ne_empty (pd : String → Option Nat)
    (ti de st pr : Option String) (tg : Option (List String))
    (du : Option String) (e : String)
    (h : updateValidation pd ti de st pr tg du = .error e) : e ≠ "" := by
  unfold updateValidation at h
  repeat' split at h
  all_goals first
    | (injection h with h; subst h; decide)
    | exact absurd h (by simp)

theorem wf_update_task (pd : String → Option Nat) (now : Nat)
    (fault : Option String) (uid tid : String) (ti de st pr : Option String)
    (tg : Option (List String)) (du : Option String) (db : List Task) :
    resultWellFormed (update_task pd now fault uid tid ti de st pr tg du db).1 := by
  unfold update_task
  cases hval : updateValidation pd ti de st pr tg du with
  | error e =>
    simp only [hval, resultWellFormed]
    exact updateValidation_error_ne_empty pd ti de st pr tg du e hval
  | ok parsed =>
    simp only [hval]
    repeat' split
    all_goals simp only [resultWellFormed]
    all_goals first
      | trivial
      | decide
      | exact append_ne_empty_left _ _ (by decide)

theorem wf_complete_task (now : Nat) (fault : Option String)
    (uid tid : String) (db : List Task) :
    resultWellFormed (complete_task now fault uid tid db).1 := by
  unfold complete_task
  repeat' split
  all_goals simp only [resultWellFormed]
  all_goals first
    | trivial
    | decide
    | exact append_ne_empty_left _ _ (by decide)

theorem wf_delete_task (fault : Option String) (uid tid : String)
    (db : List Task) :
    resultWellFormed (delete_task fault uid tid db).1 := by
  unfold delete_task
  repeat' split
  all_goals simp only [resultWellFormed]
  all_goals first
    | trivial
    | decide
    | exact append_ne_empty_left _ _ (by decide)

/-! ## Claim theorems -/

/-- C7: every one of the five tool operations, for every input —
including any argument payload, an unknown tool name, a malformed
argument payload, and an arbitrary storage-layer exception injected via
`env.fault` — returns a structured result (success, or failure with a
nonempty error string); the dispatch `executeToolCall` is a total
function into `ToolOutcome`, so no exception ever crosses the tool
boundary into the Agent Loop's control flow. -/
theorem tool_results_always_structured (env : ToolEnv) (auth : String)
    (c : ToolCall) (db : List Task) :
    resultWellFormed (executeToolCall env auth c db).1 := by
  cases c with
  | add a => exact wf_add_task _ _ _ _ _ _ _ _ _ _ _
  | listT a => exact wf_list_tasks _ _ _ _ _ _ _
  | update a => exact wf_update_task _ _ _ _ _ _ _ _ _ _ _ _
  | complete a => exact wf_complete_task _ _ _ _ _
  | delete a => exact wf_delete_task _ _ _ _
  | unknown n =>
    simp only [executeToolCall, resultWellFormed]
    exact append_ne_empty_left _ _ (by decide)
  | malformed e =>
    simp only [executeToolCall, resultWellFormed]
    exact append_ne_empty_left _ _ (by decide)

/-- C1: for a task `T` owned by user `A` and any user `b ≠ A` (with the
table satisfying the primary-key invariant that ids are distinct),
`update_task` (with any argument payload passing validation),
`complete_task` and `delete_task` invoked with `user_id = b` and
`task_id = T.id` all return the failure `"Task not found or access
denied"` — the same result an unknown id yields — and leave the table,
in particular every stored field of `T`, unchanged. -/
theorem ownership_isolation (parseDate : String → Option Nat) (now : Nat)
    (db : List Task) (T : Task) (b : String)
    (title description status priority : Option String)
    (tags : Option (List String)) (due_date : Option String)
    (parsedDue : Option Nat)
    (hNodup : (db.map Task.id).Nodup) (hT : T ∈ db) (hB : T.user_id ≠ b)
    (hVal : updateValidation parseDate title description status priority tags due_date
              = .ok parsedDue) :
    update_task parseDate now none b T.id title description status priority tags due_date db
        = (.failure "Task not found or access denied", db)
    ∧ complete_task now none b T.id db
        = (.failure "Task not found or access denied", db)
    ∧ delete_task none b T.id db
        = (.failure "Task not found or access denied", db) := by
  have hfind : findTask T.id b db = none := by
    apply findTask_eq_none_of_foreign
    intro t ht hc
    have ht2 : t = T := List.inj_on_of_nodup_map hNodup ht hT hc.1
    exact hB (ht2 ▸ hc.2)
  refine ⟨?_, ?_, ?_⟩
  · rw [update_task, hVal]
    simp only [hfind]
  · rw [complete_task]
    simp only [hfind]
  · rw [delete_task]
    simp only [hfind]

/-- Witness for C1 at a concrete table: `taskA` is owned by `"alice"`,
and `"bob"`'s calls all fail without touching the table. -/
theorem ownership_isolation_witness :
    update_task (fun _ => none) 5 none "bob" "t1" (some "X") none none none none none [taskA]
        = (.failure "Task not found or access denied", [taskA])
    ∧ complete_task 5 none "bob" "t1" [taskA]
        = (.failure "Task not found or access denied", [taskA])
    ∧ delete_task none "bob" "t1" [taskA]
        = (.failure "Task not found or access denied", [taskA]) :=
  ownership_isolation (fun _ => none) 5 [taskA] taskA "bob"
    (some "X") none none none none none none
    (by decide) (by simp) (by decide) (by rfl)

/-- C2: the Agent Loop dispatches every tool call with `user_id` equal
to the authenticated caller's id, regardless of the model-supplied
payload: overwriting the payload's `user_id` field with any value does
not change the dispatched call's result, and any row created or mutated
by the dispatch is owned by the authenticated caller. -/
theorem user_id_injection (env : ToolEnv) (auth : String) (v : Option String)
    (c : ToolCall) (db : List Task) :
    executeToolCall env auth (c.withUser v) db = executeToolCall env auth c db
    ∧ ∀ t2 ∈ (executeToolCall env auth c db).2, t2 ∉ db → t2.user_id = auth := by
  constructor
  · cases c <;> rfl
  · intro t2 ht2 hnew
    cases c with
    | unknown n => exact absurd ht2 hnew
    | malformed e => exact absurd ht2 hnew
    | add a =>
      revert ht2
      simp only [executeToolCall]
      unfold add_task
      repeat' split
      all_goals intro ht2
      all_goals try exact absurd ht2 hnew
      rcases List.mem_append.mp ht2 with h | h
      · exact absurd h hnew
      · rw [List.mem_singleton.mp h]
    | listT a =>
      revert ht2
      simp only [executeToolCall]
      unfold list_tasks
      repeat' split
      all_goals intro ht2
      all_goals exact absurd ht2 hnew
    | update a =>
      revert ht2
      simp only [executeToolCall]
      unfold update_task
      repeat' split
      all_goals intro ht2
      all_goals try exact absurd ht2 hnew
      next parsed _ _ t0 hfind =>
        rcases mem_replaceTask ht2 with h | ⟨u, hu, _, heq⟩
        · exact absurd h hnew
        · have h0 := List.find?_some
            (show List.find? (fun t => t.id == a.task_id && t.user_id == auth) db
                = some t0 from hfind)
          rw [heq, applyUpdate_user_id]
          exact beq_iff_eq.mp ((Bool.and_eq_true _ _).mp h0).2
    | complete a =>
      revert ht2
      simp only [executeToolCall]
      unfold complete_task
      repeat' split
      all_goals intro ht2
      all_goals try exact absurd ht2 hnew
      next t0 hfind =>
        rcases mem_replaceTask ht2 with h | ⟨u, hu, hm, heq⟩
        · exact absurd h hnew
        · rw [heq]
          exact beq_iff_eq.mp ((Bool.and_eq_true _ _).mp hm).2
    | delete a =>
      revert ht2
      simp only [executeToolCall]
      unfold delete_task
      repeat' split
      all_goals intro ht2
      all_goals try exact absurd ht2 hnew
      exact absurd (mem_removeTask ht2) hnew

/-- Witness for C2: a payload carrying `user_id = "evil"`, re-overwritten
with `"mallory"`, dispatches identically, and the row created by the
dispatch for authenticated caller `"alice"` is owned by `"alice"`. -/
theorem user_id_injection_witness :
    executeToolCall toolEnv0 "alice"
        ((ToolCall.add ⟨some "evil", "Buy milk", none, none, none, none⟩).withUser
          (some "mallory")) []
      = executeToolCall toolEnv0 "alice"
          (.add ⟨some "evil", "Buy milk", none, none, none, none⟩) []
    ∧ Task.user_id ⟨"n1", "alice", "Buy milk", none, "Medium", "", none, false, "ready", 0, 0⟩
        = "alice" :=
  ⟨(user_id_injection toolEnv0 "alice" (some "mallory")
      (.add ⟨some "evil", "Buy milk", none, none, none, none⟩) []).1,
   (user_id_injection toolEnv0 "alice" (some "mallory")
      (.add ⟨some "evil", "Buy milk", none, none, none, none⟩) []).2
     ⟨"n1", "alice", "Buy milk", none, "Medium", "", none, false, "ready", 0, 0⟩
     (by decide) (by decide)⟩

theorem agentLoop_always_tools (model : List ChatMsg → Except String ModelMsg)
    (env : ToolEnv) (auth : String)
    (H : ∀ ms, ∃ m, model ms = .ok m ∧ m.tool_calls ≠ []) :
    ∀ fuel msgs db calls, ∃ db2,
      agentLoop model env auth fuel msgs db calls
        = (.ok (fallbackReply, calls + fuel), db2) := by
  intro fuel
  induction fuel with
  | zero =>
    intro msgs db calls
    exact ⟨db, by simp [agentLoop]⟩
  | succ n ih =>
    intro msgs db calls
    obtain ⟨m, hm, hne⟩ := H msgs
    have hemp : m.tool_calls.isEmpty = false := by
      cases hmc : m.tool_calls
      · exact absurd hmc hne
      · rfl
    rw [agentLoop, hm]
    simp only [hemp, Bool.false_eq_true, if_false]
    have harith : calls + (n + 1) = (calls + 1) + n := by omega
    rw [harith]
    exact ih _ _ (calls + 1)

/-- C3: if the model capability requests at least one tool call on every
invocation and never returns a plain-text reply, then `run` with
`max_iterations = 5` performs exactly 5 model calls (the returned call
counter), terminates (it is a total function), and returns the fixed
apologetic fallback string. -/
theorem iteration_cap (model : List ChatMsg → Except String ModelMsg)
    (env : ToolEnv) (auth : String) (msgs : List ChatMsg) (db : List Task)
    (H : ∀ ms, ∃ m, model ms = .ok m ∧ m.tool_calls ≠ []) :
    ∃ db2, agentRun model env auth msgs db 5 = (.ok (fallbackReply, 5), db2) :=
  agentLoop_always_tools model env auth H 5 msgs db 0

/-- Witness for C3: the always-tool-calling stub makes `run` return the
fallback after exactly 5 model calls. -/
theorem iteration_cap_witness :
    ∃ db2, agentRun modelAlwaysTool toolEnv0 "alice" [] [] 5
        = (.ok (fallbackReply, 5), db2) :=
  iteration_cap modelAlwaysTool toolEnv0 "alice" [] []
    (fun _ => ⟨⟨none, [("call_1", .unknown "no_such_tool")]⟩, rfl, by decide⟩)

/-- C4: when the chat request fails with the agent-failure error (the
500 raised exactly when the Agent Loop fails, after the user message was
buffered in steps 2-5 and before the step-8 commit), the committed
conversation store is unchanged: zero new `Message` rows exist for the
conversation, so "user message persisted but no assistant reply" is
unreachable. -/
theorem atomic_request (env : ChatEnv) (auth messageText : String)
    (conversation_id : Option Nat) (store : ChatStore) (taskDb : List Task)
    (d : String)
    (hFail : (send_chat_message env auth messageText conversation_id store taskDb).1
        = .error (.serverError d)) :
    (send_chat_message env auth messageText conversation_id store taskDb).2.1 = store := by
  cases hprep : chatPrepare env auth messageText conversation_id store with
  | error e => simp [send_chat_message, hprep]
  | ok prep =>
    rcases hrun : agentRun env.model env.toolEnv auth prep.2.2 taskDb 5 with ⟨r, taskDb2⟩
    cases r with
    | error e => simp [send_chat_message, hprep, hrun]
    | ok r2 => simp [send_chat_message, hprep, hrun] at hFail

/-- Witness for C4: a failing model capability leaves the committed
store exactly as it was. -/
theorem atomic_request_witness :
    (send_chat_message chatEnvFail "alice" "hi" none ⟨[], []⟩ []).2.1
      = (⟨[], []⟩ : ChatStore) :=
  atomic_request chatEnvFail "alice" "hi" none ⟨[], []⟩ []
    "AI service is currently unavailable. Please try again later." (by rfl)

/-- Counterexample to C5 as stated: with a failing model capability the
handler surfaces the agent failure, but the incoming user message is
NOT durably stored — the committed store still holds zero message rows,
so the "already-stored message remains" part of the claim is false. -/
theorem user_message_not_durable_on_agent_failure :
    (send_chat_message chatEnvFail "alice" "hi" none ⟨[], []⟩ []).1
        = .error (.serverError "AI service is currently unavailable. Please try again later.")
    ∧ (send_chat_message chatEnvFail "alice" "hi" none ⟨[], []⟩ []).2.1.messages = [] :=
  ⟨rfl, rfl⟩

/-- C5 (amended): the handler buffers the incoming user message in the
request's session before the Agent Loop is consulted (`chatPrepare`
covers steps 2-5 and makes no use of the model capability), and the
buffered message becomes durable when the post-agent commit publishes
the buffer on success; on agent failure nothing is committed (see the
C4 theorem and the counterexample). -/
theorem user_message_buffered_before_agent (env : ChatEnv)
    (auth messageText : String) (conversation_id : Option Nat)
    (store buf : ChatStore) (convId : Nat) (arr : List ChatMsg)
    (hPrep : chatPrepare env auth messageText conversation_id store
        = .ok (buf, convId, arr)) :
    (⟨convId, "user", messageText, env.now⟩ : Message) ∈ buf.messages
    ∧ ∀ taskDb reply k taskDb2,
        agentRun env.model env.toolEnv auth arr taskDb 5 = (.ok (reply, k), taskDb2) →
        (⟨convId, "user", messageText, env.now⟩ : Message)
          ∈ (send_chat_message env auth messageText conversation_id store taskDb).2.1.messages := by
  have h1 : (⟨convId, "user", messageText, env.now⟩ : Message) ∈ buf.messages := by
    rw [chatPrepare] at hPrep
    cases hg : get_or_create_conversation env auth conversation_id store with
    | error e =>
      rw [hg] at hPrep
      exact absurd hPrep (by simp)
    | ok s =>
      rw [hg] at hPrep
      simp only [Except.ok.injEq, Prod.mk.injEq] at hPrep
      obtain ⟨hbuf, hcid, _harr⟩ := hPrep
      rw [← hbuf, ← hcid]
      simp [store_message]
  refine ⟨h1, ?_⟩
  intro taskDb reply k taskDb2 hrun
  simp only [send_chat_message, hPrep, hrun]
  simp only [store_message, List.mem_append]
  exact Or.inl h1

/-- Witness for the amended C5: a successful request buffers and then
durably commits the user's message. -/
theorem user_message_buffered_before_agent_witness :
    (⟨1, "user", "hi", 0⟩ : Message)
      ∈ (ChatStore.mk [⟨1, "alice", "New Conversation", 0, 0, true⟩]
          [⟨1, "user", "hi", 0⟩]).messages
    ∧ (⟨1, "user", "hi", 0⟩ : Message)
      ∈ (send_chat_message chatEnvOk "alice" "hi" none ⟨[], []⟩ []).2.1.messages := by
  have h := user_message_buffered_before_agent chatEnvOk "alice" "hi" none ⟨[], []⟩
    ⟨[⟨1, "alice", "New Conversation", 0, 0, true⟩], [⟨1, "user", "hi", 0⟩]⟩ 1
    [⟨"system", .text TODO_ASSISTANT_SYSTEM_PROMPT, none, none⟩,
     ⟨"user", .text "hi", none, none⟩] (by rfl)
  exact ⟨h.1, h.2 [] "ok" 1 [] (by rfl)⟩

/-- C6: for a conversation whose stored messages (in store order) have
strictly increasing creation timestamps, fetching the last `K < N`
messages returns exactly the `K` most recent in ascending chronological
order — the tail slice of the full chronological fetch. -/
theorem chronological_round_trip (store : ChatStore) (cid : Nat)
    (ms : List Message) (K : Nat)
    (hms : store.messages.filter (fun m => m.conversation_id == cid) = ms)
    (hasc : ms.Pairwise (fun a b => a.created_at < b.created_at))
    (hK : K < ms.length) :
    get_conversation_messages store cid ms.length = ms
    ∧ get_conversation_messages store cid K = ms.drop (ms.length - K)
    ∧ get_conversation_messages store cid K
        = (get_conversation_messages store cid ms.length).drop (ms.length - K) := by
  have hsort : sortDescMsgs (store.messages.filter
      (fun m => m.conversation_id == cid)) = ms.reverse := by
    rw [hms]
    exact sortDescMsgs_of_ascending ms hasc
  have hfull : get_conversation_messages store cid ms.length = ms := by
    rw [get_conversation_messages, hsort, ← List.length_reverse ms,
      List.take_length, List.reverse_reverse]
  have hlast : get_conversation_messages store cid K = ms.drop (ms.length - K) := by
    rw [get_conversation_messages, hsort, List.take_reverse, List.reverse_reverse]
  exact ⟨hfull, hlast, by rw [hfull, hlast]⟩

/-- Witness for C6 on a three-message conversation with `K = 2`. -/
theorem chronological_round_trip_witness :
    get_conversation_messages
        ⟨[], [⟨1, "user", "a", 1⟩, ⟨1, "assistant", "b", 2⟩, ⟨1, "user", "c", 3⟩]⟩ 1 3
      = [⟨1, "user", "a", 1⟩, ⟨1, "assistant", "b", 2⟩, ⟨1, "user", "c", 3⟩]
    ∧ get_conversation_messages
        ⟨[], [⟨1, "user", "a", 1⟩, ⟨1, "assistant", "b", 2⟩, ⟨1, "user", "c", 3⟩]⟩ 1 2
      = List.drop 1 [⟨1, "user", "a", 1⟩, ⟨1, "assistant", "b", 2⟩, ⟨1, "user", "c", 3⟩]
    ∧ get_conversation_messages
        ⟨[], [⟨1, "user", "a", 1⟩, ⟨1, "assistant", "b", 2⟩, ⟨1, "user", "c", 3⟩]⟩ 1 2
      = List.drop 1 (get_conversation_messages
          ⟨[], [⟨1, "user", "a", 1⟩, ⟨1, "assistant", "b", 2⟩, ⟨1, "user", "c", 3⟩]⟩ 1 3) :=
  chronological_round_trip
    ⟨[], [⟨1, "user", "a", 1⟩, ⟨1, "assistant", "b", 2⟩, ⟨1, "user", "c", 3⟩]⟩ 1
    [⟨1, "user", "a", 1⟩, ⟨1, "assistant", "b", 2⟩, ⟨1, "user", "c", 3⟩] 2
    (by rfl) (by decide) (by decide)

theorem complete_task_found (now : Nat) (uid tid : String) (db : List Task)
    (t0 : Task) (h : findTask tid uid db = some t0) :
    complete_task now none uid tid db
      = (.success (.taskDone t0.id t0.title true "done" now)
           (some ("Task \x27" ++ t0.title ++ "\x27 marked as completed")),
         replaceTask tid uid
           (fun u => { u with completed := true, status := "done", updated_at := now }) db) := by
  simp [complete_task, h]

/-- Counterexample to C8 as stated: completing the same task twice (at
instants 0 and 1) succeeds both times, but the final stored state is
NOT identical to the state after a single call — the second call
refreshes `updated_at`. -/
theorem complete_twice_changes_state :
    (complete_task 0 none "alice" "t1" [taskA]).1.isSuccess = true
    ∧ (complete_task 1 none "alice" "t1"
        (complete_task 0 none "alice" "t1" [taskA]).2).1.isSuccess = true
    ∧ (complete_task 1 none "alice" "t1"
        (complete_task 0 none "alice" "t1" [taskA]).2).2
      ≠ (complete_task 0 none "alice" "t1" [taskA]).2 := by
  refine ⟨rfl, rfl, ?_⟩
  decide

/-- C8 (amended): completing an owned task twice succeeds both times and
is idempotent on the stored state up to the `updated_at` timestamp: the
state after the two calls equals the state a single call at the second
call's instant would produce (so with equal timestamps the states are
fully identical), and the task ends completed with status `"done"`. -/
theorem idempotent_completion (now1 now2 : Nat) (uid tid : String)
    (db : List Task) (t0 : Task)
    (h : findTask tid uid db = some t0) :
    (complete_task now1 none uid tid db).1.isSuccess = true
    ∧ (complete_task now2 none uid tid
        (complete_task now1 none uid tid db).2).1.isSuccess = true
    ∧ (complete_task now2 none uid tid
        (complete_task now1 none uid tid db).2).2
      = (complete_task now2 none uid tid db).2
    ∧ ∃ t2, findTask tid uid (complete_task now2 none uid tid
          (complete_task now1 none uid tid db).2).2 = some t2
        ∧ t2.completed = true ∧ t2.status = "done" := by
  have hmatch0 := List.find?_some
    (show List.find? (fun t => t.id == tid && t.user_id == uid) db = some t0 from h)
  rw [complete_task_found now1 uid tid db t0 h]
  have hfind1 : findTask tid uid (replaceTask tid uid
      (fun u => { u with completed := true, status := "done", updated_at := now1 }) db)
      = some { t0 with completed := true, status := "done", updated_at := now1 } :=
    findTask_replaceTask tid uid _ db t0 h (by simpa using hmatch0)
  rw [complete_task_found now2 uid tid _ _ hfind1, complete_task_found now2 uid tid db t0 h]
  refine ⟨rfl, rfl, ?_, ?_⟩
  · rw [replaceTask_replaceTask tid uid
      (fun u => { u with completed := true, status := "done", updated_at := now1 })
      (fun u => { u with completed := true, status := "done", updated_at := now2 })
      (fun u => ⟨rfl, rfl⟩) db]
  · refine ⟨{ t0 with completed := true, status := "done", updated_at := now2 }, ?_, rfl, rfl⟩
    have := findTask_replaceTask tid uid
      (fun u => { u with completed := true, status := "done", updated_at := now2 })
      (replaceTask tid uid
        (fun u => { u with completed := true, status := "done", updated_at := now1 }) db)
      ({ t0 with completed := true, status := "done", updated_at := now1 })
      hfind1 (by simpa using hmatch0)
    simpa using this

/-- Witness for the amended C8 on a concrete owned task, completing at
instants 0 and then 1. -/
theorem idempotent_completion_witness :
    (complete_task 0 none "alice" "t1" [taskA]).1.isSuccess = true
    ∧ (complete_task 1 none "alice" "t1"
        (complete_task 0 none "alice" "t1" [taskA]).2).1.isSuccess = true
    ∧ (complete_task 1 none "alice" "t1"
        (complete_task 0 none "alice" "t1" [taskA]).2).2
      = (complete_task 1 none "alice" "t1" [taskA]).2
    ∧ ∃ t2, findTask "t1" "alice" (complete_task 1 none "alice" "t1"
          (complete_task 0 none "alice" "t1" [taskA]).2).2 = some t2
        ∧ t2.completed = true ∧ t2.status = "done" :=
  idempotent_completion 0 1 "alice" "t1" [taskA] taskA (by rfl)

/-- C9: a successful `update_task` that supplies a status value sets the
stored status to that value, and the completed flag becomes `true` when
the status is `"done"` and is left exactly as it was for any other
status — in particular no status value ever resets `completed` to
`false`, and an already-completed task updated to `"ready"` keeps
`completed = true` with `status = "ready"`. -/
theorem update_status_completed_flag (parseDate : String → Option Nat)
    (now : Nat) (uid tid : String) (title description priority : Option String)
    (s : String) (tags : Option (List String)) (due_date : Option String)
    (parsedDue : Option Nat) (db : List Task) (t0 : Task)
    (hVal : updateValidation parseDate title description (some s) priority tags due_date
        = .ok parsedDue)
    (hFind : findTask tid uid db = some t0) :
    (update_task parseDate now none uid tid title description (some s) priority tags
        due_date db).1.isSuccess = true
    ∧ ∃ t1, findTask tid uid (update_task parseDate now none uid tid title description
          (some s) priority tags due_date db).2 = some t1
        ∧ t1.status = s
        ∧ t1.completed = (if s = "done" then true else t0.completed) := by
  have hmatch0 := List.find?_some
    (show List.find? (fun t => t.id == tid && t.user_id == uid) db = some t0 from hFind)
  have hred : update_task parseDate now none uid tid title description (some s) priority
      tags due_date db
      = (.success (.taskFull (taskDataU
            (applyUpdate now title description (some s) priority tags parsedDue t0))) none,
         replaceTask tid uid
           (fun _ => applyUpdate now title description (some s) priority tags parsedDue t0)
           db) := by
    rw [update_task, hVal]
    simp [hFind]
  constructor
  · rw [hred]
    rfl
  · refine ⟨applyUpdate now title description (some s) priority tags parsedDue t0, ?_,
      applyUpdate_status now title description priority s tags parsedDue t0,
      applyUpdate_completed now title description priority s tags parsedDue t0⟩
    rw [hred]
    exact findTask_replaceTask tid uid _ db t0 hFind
      (by simp only [applyUpdate_id, applyUpdate_user_id]; exact hmatch0)

/-- Witness for C9: updating the already-completed `taskDoneA` to status
`"ready"` leaves it completed with status `"ready"`. -/
theorem update_status_completed_flag_witness :
    (update_task (fun _ => none) 9 none "alice" "t1" none none (some "ready") none
        none none [taskDoneA]).1.isSuccess = true
    ∧ ∃ t1, findTask "t1" "alice" (update_task (fun _ => none) 9 none "alice" "t1" none
          none (some "ready") none none none [taskDoneA]).2 = some t1
        ∧ t1.status = "ready"
        ∧ t1.completed = (if "ready" = "done" then true else taskDoneA.completed) :=
  update_status_completed_flag (fun _ => none) 9 "alice" "t1" none none none "ready"
    none none none [taskDoneA] taskDoneA (by rfl) (by rfl)

/-- Counterexample to C10 as stated: the comma-free input tag list
`[""]` is stored as the empty joined string, so the returned tags list
is `[]`, not the input list. -/
theorem add_task_empty_tag_not_round_tripped :
    successTags (add_task (fun _ => none) "n1" 0 none "u" "Title" none "Medium"
        (some [""]) none []).1 = some []
    ∧ ¬ (some ([] : List String) = some [""]) :=
  ⟨rfl, by decide⟩

/-- C10 (amended): `add_task` stores tags comma-joined and reports them
comma-split, so every comma-free input tag list other than the
singleton empty-string list (whose join is the empty string, reported
as zero tags) round-trips to itself in the success data; an input tag
with an embedded comma comes back split apart (`["a,b"]` becomes
`["a", "b"]`); and `list_tasks` reports a stored tags string through
the same splitting. -/
theorem tags_comma_semantics (pd : String → Option Nat) (nid : String)
    (now : Nat) (uid title : String) (ts : List String) (db : List Task)
    (hTitle1 : ¬ title = "") (hTitle2 : title.length ≤ 200)
    (hc : ∀ t ∈ ts, ',' ∉ t.data) (hne : ts ≠ [""]) :
    successTags (add_task pd nid now none uid title none "Medium"
        (some ts) none db).1 = some ts
    ∧ successTags (add_task pd nid now none uid title none "Medium"
        (some ["a,b"]) none db).1 = some ["a", "b"]
    ∧ ∀ t : Task, listedTags (list_tasks none t.user_id none none none 20 [t]).1
        = some [pySplitTags t.tags] := by
  have hcond : ¬ (title = "" ∨ title.length > 200) := by
    push_neg
    exact ⟨hTitle1, by omega⟩
  refine ⟨?_, ?_, ?_⟩
  · rw [add_task, if_neg hcond]
    show some (pySplitTags (pyJoinTags (some ts))) = some ts
    rw [pySplitTags_roundTrip ts hne hc]
  · rw [add_task, if_neg hcond]
    rfl
  · intro t
    have hf : listFilter t.user_id none none none t = true := by
      simp [listFilter]
    rw [list_tasks]
    rw [if_neg (by decide), if_neg (by simp [optBad]), if_neg (by simp [optBad])]
    simp only [List.filter, hf, List.take, listedTags, List.map, taskDataC]

/-- Witness for the amended C10: a comma-free pair of tags round-trips,
an embedded comma splits, and a stored task's tags are reported split. -/
theorem tags_comma_semantics_witness :
    successTags (add_task (fun _ => none) "n1" 0 none "u" "Title" none "Medium"
        (some ["home", "work"]) none []).1 = some ["home", "work"]
    ∧ successTags (add_task (fun _ => none) "n1" 0 none "u" "Title" none "Medium"
        (some ["a,b"]) none []).1 = some ["a", "b"]
    ∧ listedTags (list_tasks none taskA.user_id none none none 20 [taskA]).1
        = some [pySplitTags taskA.tags] :=
  ⟨(tags_comma_semantics (fun _ => none) "n1" 0 "u" "Title" ["home", "work"] []
      (by decide) (by decide) (by decide) (by decide)).1,
   (tags_comma_semantics (fun _ => none) "n1" 0 "u" "Title" ["home", "work"] []
      (by decide) (by decide) (by decide) (by decide)).2.1,
   (tags_comma_semantics (fun _ => none) "n1" 0 "u" "Title" ["home", "work"] []
      (by decide) (by decide) (by decide) (by decide)).2.2 taskA⟩

end Todo
